import Mathlib

/-!
Shallow embedding of `src/main.rs` of the wol-man repository: a polling
loop that fetches Telegram updates, authorizes each message against a
fixed allow-list, dispatches the `/health` and `/wake` commands, and
broadcasts a Wake-on-LAN magic packet.

The embedding models the observable behaviour of the loop as a pure
function from the outcome of each network interaction (supplied as data)
to the resulting offset and a trace of emitted events (log lines, command
invocations, UDP sends, sleeps).  Machine integers are modelled as `Nat`
(the `u64` update id and offset) and `Int` (the `i64` chat id); byte
values are `Nat`.  `rustTrim` models Rust `str::trim` (they agree on
ASCII whitespace, which is all the command matching ever sees).
-/

namespace WolMan

/-- Mirrors `struct Chat { id: i64 }`. -/
structure Chat where
  id : Int
deriving DecidableEq, Repr

/-- Mirrors `struct Message { text: Option<String>, chat: Chat }`. -/
structure Message where
  text : Option String
  chat : Chat
deriving DecidableEq, Repr

/-- Mirrors `struct Update { update_id: u64, message: Option<Message> }`. -/
structure Update where
  update_id : Nat
  message : Option Message
deriving DecidableEq, Repr

/-- Mirrors `struct TelegramResponse { ok: bool, result: Vec<Update> }`. -/
structure TelegramResponse where
  ok : Bool
  result : List Update
deriving DecidableEq, Repr

/-- Observable events emitted by the loop body and the send helpers.
`wolCall` and `replyCall` record the main loop invoking `send_wol_packet`
and `send_telegram_message`; `udpSendTo` and `replyRequest` record the
network operations inside those two helpers. -/
inductive Event where
  | fetch (offset : Nat)
  | logInfo (s : String)
  | logError (s : String)
  | wolCall
  | replyCall (chatId : Int) (text : String)
  | udpSendTo (payload : List Nat) (dest : String)
  | replyRequest (chatId : Int) (text : String)
  | sleepSec (n : Nat)
deriving DecidableEq, Repr

/-- An event is an action (an outbound reply or a wake invocation), as
opposed to a log line, fetch or sleep. -/
def isAction : Event → Bool
  | .wolCall => true
  | .replyCall _ _ => true
  | _ => false

/-- Rust `str::trim`: remove leading and trailing whitespace.  Modelled
over the char list so it computes by structural recursion (Rust trims per
Unicode White_Space, `Char.isWhitespace` per ASCII whitespace; they agree
on every input the command matching distinguishes). -/
def rustTrim (s : String) : String :=
  ⟨((s.data.dropWhile Char.isWhitespace).reverse.dropWhile Char.isWhitespace).reverse⟩

/-- The body of `if let Some(msg) = update.message { ... }` in `main`:
authorization gate, then command matching on the trimmed text. -/
def handleMessage (auth : List Int) (msg : Message) : List Event :=
  if auth.contains msg.chat.id = false then
    [.logInfo ("Unauthorized access attempt from ID: " ++ toString msg.chat.id)]
  else
    match msg.text with
    | none => []
    | some text =>
      [.logInfo ("Received message: " ++ text)]
        ++ (if rustTrim text = "/health" then [.replyCall msg.chat.id "Ready!"] else [])
        ++ (if rustTrim text = "/wake" then [.wolCall, .replyCall msg.chat.id "Success!"] else [])

/-- One iteration of `for update in updates.result`: the offset is set to
`update.update_id + 1` unconditionally, then the optional message is
handled. -/
def processUpdate (auth : List Int) (u : Update) : Nat × List Event :=
  (u.update_id + 1,
    match u.message with
    | none => []
    | some msg => handleMessage auth msg)

/-- The whole `for update in updates.result` loop, threading the offset. -/
def processUpdates (auth : List Int) : List Update → Nat → Nat × List Event
  | [], off => (off, [])
  | u :: us, _off =>
    let step := processUpdate auth u
    let rest := processUpdates auth us step.1
    (rest.1, step.2 ++ rest.2)

/-- Outcome of one fetch: a transport failure of the GET request, or an
HTTP response with its status and the result of parsing its body
(`none` models `serde_json::from_str` failing). -/
inductive FetchOutcome where
  | transportErr (e : String)
  | response (status : Nat) (parse : Option TelegramResponse)
deriving DecidableEq, Repr

/-- One iteration of the outer `loop` in `main`: issue the fetch at the
current offset, handle the outcome exactly as the `match response_result`
in the source does, then sleep one second. -/
def pollCycle (auth : List Int) (off : Nat) (f : FetchOutcome) : Nat × List Event :=
  let core : Nat × List Event :=
    match f with
    | .transportErr e => (off, [.logError ("HTTP Request failed: " ++ e)])
    | .response status parse =>
      if status = 200 then
        match parse with
        | some resp => processUpdates auth resp.result off
        | none => (off, [.logError "Failed to parse JSON response"])
      else
        (off, [.logError ("Telegram error status: " ++ toString status)])
  (core.1, .fetch off :: core.2 ++ [.sleepSec 1])

/-- A finite number of iterations of the outer loop, one fetch outcome per
iteration. -/
def runCycles (auth : List Int) : List FetchOutcome → Nat → Nat × List Event
  | [], off => (off, [])
  | f :: fs, off =>
    let c := pollCycle auth off f
    let r := runCycles auth fs c.1
    (r.1, c.2 ++ r.2)

/-- The ids of a batch of updates, in batch order. -/
def idsOf (us : List Update) : List Nat :=
  us.map (fun u => u.update_id)

/-- The ids are strictly increasing and all at least `off` (the backend
contract for a batch fetched at offset `off`). -/
def ascendingFrom (off : Nat) : List Nat → Bool
  | [] => true
  | i :: is => decide (off ≤ i) && ascendingFrom (i + 1) is

/-- A fetch outcome respects the backend ascending-id contract relative to
the offset it was fetched at (vacuous for failed or unparsed cycles). -/
def batchOK (off : Nat) : FetchOutcome → Bool
  | .transportErr _ => true
  | .response status parse =>
    if status = 200 then
      match parse with
      | some resp => ascendingFrom off (idsOf resp.result)
      | none => true
    else true

/-- Every cycle in the list respects the backend contract at the offset
the loop actually fetches it with. -/
def cyclesOK (auth : List Int) (off : Nat) : List FetchOutcome → Bool
  | [] => true
  | f :: fs => batchOK off f && cyclesOK auth (pollCycle auth off f).1 fs

/-! ### The magic-packet encoder (`send_wol_packet`) -/

/-- The `for _ in 0..16 { packet.extend_from_slice(&TARGET_MAC) }` loop. -/
def extendTimes (mac : List Nat) : Nat → List Nat → List Nat
  | 0, p => p
  | n + 1, p => extendTimes mac n (p ++ mac)

/-- The payload built by `send_wol_packet`: `vec![0xFF; 6]` extended 16
times with the 6-byte target address. -/
def buildWolPacket (mac : List Nat) : List Nat :=
  extendTimes mac 16 (List.replicate 6 0xFF)

/-- Outcome of a fallible OS operation inside the send helpers. -/
inductive NetOutcome where
  | ok
  | err (e : String)
deriving DecidableEq, Repr

/-- Outcomes of the UDP bind and send inside `send_wol_packet`
(`set_broadcast(true).ok()` discards its result, so it is not modelled). -/
structure WolEnv where
  bind : NetOutcome
  send : NetOutcome
deriving DecidableEq, Repr

/-- `fn send_wol_packet()`: its emitted events and its return value,
which in the source is the unit type — no `Result` reaches the caller. -/
def send_wol_packet (mac : List Nat) (env : WolEnv) : List Event × Unit :=
  (.logInfo "Sending Wake-on-LAN packet..." ::
    (match env.bind with
     | .err e => [.logError ("Failed to bind UDP socket: " ++ e)]
     | .ok =>
       .udpSendTo (buildWolPacket mac) "255.255.255.255:9" ::
         (match env.send with
          | .err e => [.logError ("Failed to send WoL packet: " ++ e)]
          | .ok => [.logInfo "WoL packet sent successfully!"])),
   ())

/-- How far the nested `if let Ok(...)` chain in `send_telegram_message`
gets: connection creation, request creation, body write, submit. -/
inductive ReplyOutcome where
  | connFail
  | requestFail
  | writeFail
  | submitFail
  | ok (status : Nat)
deriving DecidableEq, Repr

/-- `fn send_telegram_message(chat_id, text)`: its emitted events and its
return value, which in the source is the unit type.  Every failure branch
of the `if let` chain falls through silently — no log, no error value. -/
def send_telegram_message (chat_id : Int) (text : String) (env : ReplyOutcome) :
    List Event × Unit :=
  match env with
  | .connFail => ([], ())
  | .requestFail => ([], ())
  | .writeFail => ([.replyRequest chat_id text], ())
  | .submitFail => ([.replyRequest chat_id text], ())
  | .ok status =>
    ([.replyRequest chat_id text, .logInfo ("Reply sent status: " ++ toString status)], ())

/-- An event is the UDP send attempt inside `send_wol_packet`. -/
def isUdpSend : Event → Bool
  | .udpSendTo _ _ => true
  | _ => false

/-- An event is the HTTP POST attempt inside `send_telegram_message`. -/
def isReplyRequest : Event → Bool
  | .replyRequest _ _ => true
  | _ => false

/-- An event is an error log line. -/
def isErrorLog : Event → Bool
  | .logError _ => true
  | _ => false

/-! ### Helper lemmas -/

theorem processUpdates_fst (auth : List Int) (us : List Update) (off : Nat) :
    (processUpdates auth us off).1 = (idsOf us).foldl (fun _ i => i + 1) off := by
  induction us generalizing off with
  | nil => rfl
  | cons u us ih => simpa [processUpdates, idsOf, processUpdate] using ih (u.update_id + 1)

theorem foldl_succ_last : ∀ (l : List Nat) (j : Nat), l.getLast? = some j →
    ∀ off : Nat, l.foldl (fun _ i => i + 1) off = j + 1
  | [], j, h, _ => by simp at h
  | [i], j, h, off => by
    simp at h
    simp [h]
  | i :: i2 :: t, j, h, off => by
    rw [List.getLast?_cons_cons] at h
    simpa using foldl_succ_last (i2 :: t) j h (i + 1)

theorem ascendingFrom_foldl_le : ∀ (l : List Nat) (off : Nat),
    ascendingFrom off l = true → off ≤ l.foldl (fun _ i => i + 1) off
  | [], off, _ => le_refl off
  | i :: t, off, h => by
    rw [ascendingFrom, Bool.and_eq_true, decide_eq_true_iff] at h
    have hrec := ascendingFrom_foldl_le t (i + 1) h.2
    simpa using le_trans (Nat.le_succ_of_le h.1) hrec

theorem pollCycle_fst_le (auth : List Int) (off : Nat) (f : FetchOutcome)
    (h : batchOK off f = true) : off ≤ (pollCycle auth off f).1 := by
  cases f with
  | transportErr e => simp [pollCycle]
  | response status parse =>
    by_cases hs : status = 200
    · subst hs
      cases parse with
      | none => simp [pollCycle]
      | some resp =>
        simp only [batchOK, if_pos rfl] at h
        have := ascendingFrom_foldl_le (idsOf resp.result) off h
        simpa [pollCycle, processUpdates_fst] using this
    · simp [pollCycle, hs]

theorem runCycles_fst_le (auth : List Int) : ∀ (fs : List FetchOutcome) (off : Nat),
    cyclesOK auth off fs = true → off ≤ (runCycles auth fs off).1
  | [], off, _ => le_refl off
  | f :: fs, off, h => by
    rw [cyclesOK, Bool.and_eq_true] at h
    have h1 := pollCycle_fst_le auth off f h.1
    have h2 := runCycles_fst_le auth fs (pollCycle auth off f).1 h.2
    simpa [runCycles] using le_trans h1 h2

theorem extendTimes_eq (mac : List Nat) : ∀ (n : Nat) (p : List Nat),
    extendTimes mac n p = p ++ (List.replicate n mac).flatten
  | 0, p => by simp [extendTimes]
  | n + 1, p => by
    rw [extendTimes, extendTimes_eq mac n (p ++ mac)]
    simp [List.replicate_succ]

theorem join_replicate_length (l : List Nat) : ∀ n : Nat,
    ((List.replicate n l).flatten).length = n * l.length
  | 0 => by simp
  | n + 1 => by
    simp [List.replicate_succ, join_replicate_length l n, Nat.succ_mul]
    ring

theorem join_replicate_segment (mac : List Nat) (h : mac.length = 6) :
    ∀ (n k : Nat), k < n →
      (((List.replicate n mac).flatten).drop (6 * k)).take 6 = mac
  | 0, k, hk => absurd hk (Nat.not_lt_zero k)
  | n + 1, 0, _ => by
    rw [List.replicate_succ, List.flatten_cons, Nat.mul_zero, List.drop_zero, ← h,
      List.take_left]
  | n + 1, k + 1, hk => by
    have hk2 : k < n := Nat.lt_of_succ_lt_succ hk
    rw [List.replicate_succ, List.flatten_cons]
    have hsplit : 6 * (k + 1) = mac.length + 6 * k := by rw [h]; ring
    rw [hsplit, List.drop_append]
    exact join_replicate_segment mac h n k hk2

/-! ### Claim theorems -/

/-- C1: for every update whose message's origin chat id is not in the
authorized set, the dispatcher emits only the rejection log — no reply
and no wake invocation — regardless of the message text. -/
theorem authorization_gate (auth : List Int) (u : Update) (m : Message)
    (hm : u.message = some m) (hauth : auth.contains m.chat.id = false) :
    (processUpdate auth u).2
        = [.logInfo ("Unauthorized access attempt from ID: " ++ toString m.chat.id)] ∧
    ((processUpdate auth u).2.filter isAction) = [] := by
  have hmem : m.chat.id ∉ auth := by simpa using hauth
  have hred : (processUpdate auth u).2 = handleMessage auth m := by
    simp [processUpdate, hm]
  constructor
  · rw [hred]
    simp [handleMessage, hmem]
  · rw [hred]
    simp [handleMessage, hmem, isAction]

/-- Witness for C1 at a concrete unauthorized `/wake` update. -/
theorem authorization_gate_witness :
    ((⟨5, some ⟨some "/wake", ⟨99⟩⟩⟩ : Update).message = some ⟨some "/wake", ⟨99⟩⟩) ∧
    (([42] : List Int).contains (99 : Int) = false) ∧
    ((processUpdate [42] ⟨5, some ⟨some "/wake", ⟨99⟩⟩⟩).2
        = [.logInfo ("Unauthorized access attempt from ID: " ++ toString (99 : Int))] ∧
     ((processUpdate [42] ⟨5, some ⟨some "/wake", ⟨99⟩⟩⟩).2.filter isAction) = []) :=
  ⟨rfl, by decide, authorization_gate [42] ⟨5, some ⟨some "/wake", ⟨99⟩⟩⟩
    ⟨some "/wake", ⟨99⟩⟩ rfl (by decide)⟩

/-- C2: for every 6-byte target address the payload is exactly 102 bytes:
the first 6 bytes are 0xFF and each of the 16 following 6-byte groups is
the target address, with no validation of the address value. -/
theorem wol_packet_shape (mac : List Nat) (h : mac.length = 6) :
    (buildWolPacket mac).length = 102 ∧
    (buildWolPacket mac).take 6 = List.replicate 6 0xFF ∧
    ∀ k, k < 16 → ((buildWolPacket mac).drop (6 + 6 * k)).take 6 = mac := by
  have hb : buildWolPacket mac
      = List.replicate 6 0xFF ++ (List.replicate 16 mac).flatten :=
    extendTimes_eq mac 16 (List.replicate 6 0xFF)
  refine ⟨?_, ?_, ?_⟩
  · rw [hb, List.length_append, join_replicate_length mac 16, h]
    simp
  · rw [hb]
    simp
  · intro k hk
    rw [hb]
    have h6 : 6 + 6 * k = (List.replicate 6 (0xFF : Nat)).length + 6 * k := by simp
    rw [h6, List.drop_append]
    exact join_replicate_segment mac h 16 k hk

/-- Witness for C2 at an all-zero (broadcast-unvalidated) address. -/
theorem wol_packet_shape_witness :
    (([0, 0, 0, 0, 0, 0] : List Nat).length = 6) ∧
    ((buildWolPacket [0, 0, 0, 0, 0, 0]).length = 102 ∧
     (buildWolPacket [0, 0, 0, 0, 0, 0]).take 6 = List.replicate 6 0xFF ∧
     ∀ k, k < 16 →
       ((buildWolPacket [0, 0, 0, 0, 0, 0]).drop (6 + 6 * k)).take 6 = [0, 0, 0, 0, 0, 0]) :=
  ⟨by decide, wol_packet_shape [0, 0, 0, 0, 0, 0] (by decide)⟩

/-- C3: after a successfully parsed batch whose last id is `j` the offset
is `j + 1`; the offset after a batch depends only on the id sequence (not
on messages, authorization or dispatch outcome) and is the fold of
`id + 1` over every update seen; across any sequence of cycles respecting
the backend ascending-id contract the offset never decreases. -/
theorem offset_invariant (auth auth2 : List Int) (us us2 : List Update)
    (off j : Nat) (fs : List FetchOutcome)
    (hlast : (idsOf us).getLast? = some j)
    (hids : idsOf us2 = idsOf us)
    (hok : cyclesOK auth off fs = true) :
    (processUpdates auth us off).1 = j + 1 ∧
    (processUpdates auth2 us2 off).1 = (processUpdates auth us off).1 ∧
    (processUpdates auth us off).1 = (idsOf us).foldl (fun _ i => i + 1) off ∧
    off ≤ (runCycles auth fs off).1 := by
  refine ⟨?_, ?_, processUpdates_fst auth us off, runCycles_fst_le auth fs off hok⟩
  · rw [processUpdates_fst]
    exact foldl_succ_last (idsOf us) j hlast off
  · rw [processUpdates_fst, processUpdates_fst, hids]

/-- Witness for C3: a two-update batch with ids 7 and 8 fetched at offset
7, compared against a batch with the same ids but different messages and
a different allow-list, followed by a transport-failure cycle. -/
theorem offset_invariant_witness :
    ((idsOf [⟨7, some ⟨some "/wake", ⟨42⟩⟩⟩, ⟨8, none⟩]).getLast? = some 8) ∧
    (idsOf [⟨7, none⟩, ⟨8, some ⟨some "hello", ⟨1⟩⟩⟩]
        = idsOf [⟨7, some ⟨some "/wake", ⟨42⟩⟩⟩, ⟨8, none⟩]) ∧
    (cyclesOK [42] 7
        [.response 200 (some ⟨true, [⟨7, some ⟨some "/wake", ⟨42⟩⟩⟩, ⟨8, none⟩]⟩),
         .transportErr "timeout"] = true) ∧
    ((processUpdates [42] [⟨7, some ⟨some "/wake", ⟨42⟩⟩⟩, ⟨8, none⟩] 7).1 = 8 + 1 ∧
     (processUpdates [] [⟨7, none⟩, ⟨8, some ⟨some "hello", ⟨1⟩⟩⟩] 7).1
        = (processUpdates [42] [⟨7, some ⟨some "/wake", ⟨42⟩⟩⟩, ⟨8, none⟩] 7).1 ∧
     (processUpdates [42] [⟨7, some ⟨some "/wake", ⟨42⟩⟩⟩, ⟨8, none⟩] 7).1
        = (idsOf [⟨7, some ⟨some "/wake", ⟨42⟩⟩⟩, ⟨8, none⟩]).foldl (fun _ i => i + 1) 7 ∧
     7 ≤ (runCycles [42]
        [.response 200 (some ⟨true, [⟨7, some ⟨some "/wake", ⟨42⟩⟩⟩, ⟨8, none⟩]⟩),
         .transportErr "timeout"] 7).1) :=
  ⟨by decide, by decide, by decide,
    offset_invariant [42] [] [⟨7, some ⟨some "/wake", ⟨42⟩⟩⟩, ⟨8, none⟩]
      [⟨7, none⟩, ⟨8, some ⟨some "hello", ⟨1⟩⟩⟩] 7 8
      [.response 200 (some ⟨true, [⟨7, some ⟨some "/wake", ⟨42⟩⟩⟩, ⟨8, none⟩]⟩),
       .transportErr "timeout"]
      (by decide) (by decide) (by decide)⟩

/-- C4: an authorized message whose trimmed text is exactly "/wake"
produces the wake invocation followed by exactly one reply "Success!",
in that order; the differently-cased "/Wake" produces no action. -/
theorem wake_command_matching (auth : List Int) (m : Message) (t : String)
    (hauth : auth.contains m.chat.id = true) (htext : m.text = some t)
    (htrim : rustTrim t = "/wake") :
    handleMessage auth m
        = [.logInfo ("Received message: " ++ t), .wolCall,
           .replyCall m.chat.id "Success!"] ∧
    (handleMessage auth m).filter isAction
        = [.wolCall, .replyCall m.chat.id "Success!"] ∧
    ∀ m2 : Message, m2.text = some "/Wake" →
      (handleMessage auth m2).filter isAction = [] := by
  have hne : rustTrim t ≠ "/health" := by
    rw [htrim]
    decide
  have hmem : m.chat.id ∈ auth := by simpa using hauth
  have h1 : handleMessage auth m
      = [.logInfo ("Received message: " ++ t), .wolCall,
         .replyCall m.chat.id "Success!"] := by
    simp [handleMessage, hmem, htext, htrim, hne]
  refine ⟨h1, ?_, ?_⟩
  · rw [h1]
    simp [isAction]
  · intro m2 ht2
    by_cases h2 : m2.chat.id ∈ auth
    · have hw1 : rustTrim "/Wake" ≠ "/health" := by decide
      have hw2 : rustTrim "/Wake" ≠ "/wake" := by decide
      simp [handleMessage, h2, ht2, hw1, hw2, isAction]
    · simp [handleMessage, h2, isAction]

/-- Witness for C4: text with surrounding whitespace trimming to "/wake"
from an authorized chat. -/
theorem wake_command_matching_witness :
    (([42] : List Int).contains ((⟨some "  /wake\n", ⟨42⟩⟩ : Message).chat.id) = true) ∧
    ((⟨some "  /wake\n", ⟨42⟩⟩ : Message).text = some "  /wake\n") ∧
    (rustTrim "  /wake\n" = "/wake") ∧
    (handleMessage [42] ⟨some "  /wake\n", ⟨42⟩⟩
        = [.logInfo ("Received message: " ++ "  /wake\n"), .wolCall,
           .replyCall (⟨some "  /wake\n", ⟨42⟩⟩ : Message).chat.id "Success!"] ∧
     (handleMessage [42] ⟨some "  /wake\n", ⟨42⟩⟩).filter isAction
        = [.wolCall, .replyCall (⟨some "  /wake\n", ⟨42⟩⟩ : Message).chat.id "Success!"] ∧
     ∀ m2 : Message, m2.text = some "/Wake" →
       (handleMessage [42] m2).filter isAction = []) :=
  ⟨by decide, rfl, by decide,
    wake_command_matching [42] ⟨some "  /wake\n", ⟨42⟩⟩ "  /wake\n"
      (by decide) rfl (by decide)⟩

/-- C5: a parse failure and a transport failure each leave the offset
unchanged, the rest of the loop continues from that same offset, and
every cycle issues its fetch at the loop's current offset. -/
theorem parse_failure_keeps_offset (auth : List Int) (off : Nat) (e : String)
    (f : FetchOutcome) (fs : List FetchOutcome) :
    (pollCycle auth off (.response 200 none)).1 = off ∧
    (pollCycle auth off (.transportErr e)).1 = off ∧
    runCycles auth (.response 200 none :: fs) off
        = ((runCycles auth fs off).1,
           (pollCycle auth off (.response 200 none)).2 ++ (runCycles auth fs off).2) ∧
    runCycles auth (.transportErr e :: fs) off
        = ((runCycles auth fs off).1,
           (pollCycle auth off (.transportErr e)).2 ++ (runCycles auth fs off).2) ∧
    (pollCycle auth off f).2.head? = some (.fetch off) := by
  refine ⟨rfl, rfl, rfl, rfl, rfl⟩

/-- C6 counterexample: a reply-send failure (the connection cannot even be
created) emits no log line at all and returns the bare unit value, which
is identical to what a fully successful wake send returns — so failures
are neither all logged nor reported to the caller as a Result. -/
theorem send_failure_counterexample :
    ((send_telegram_message 42 "Ready!" .connFail).1.filter isErrorLog = []) ∧
    (send_telegram_message 42 "Ready!" .connFail = ([], ())) ∧
    ((send_wol_packet [1, 2, 3, 4, 5, 6] ⟨.err "bind failed", .ok⟩).2
        = (send_wol_packet [1, 2, 3, 4, 5, 6] ⟨.ok, .ok⟩).2) :=
  ⟨rfl, rfl, rfl⟩

/-- C6 (amended): a wake-packet bind or send failure is logged and no
retry is attempted — at most one UDP send per wake call and at most one
HTTP POST per reply call; a reply failure is silently swallowed with no
log at all; and both helpers return the unit value, so no error Result
reaches the caller. -/
theorem send_error_policy (mac : List Nat) (e : String) (s : NetOutcome)
    (chat : Int) (t : String) (env : WolEnv) (renv : ReplyOutcome) :
    send_wol_packet mac ⟨.err e, s⟩
        = ([.logInfo "Sending Wake-on-LAN packet...",
            .logError ("Failed to bind UDP socket: " ++ e)], ()) ∧
    send_wol_packet mac ⟨.ok, .err e⟩
        = ([.logInfo "Sending Wake-on-LAN packet...",
            .udpSendTo (buildWolPacket mac) "255.255.255.255:9",
            .logError ("Failed to send WoL packet: " ++ e)], ()) ∧
    ((send_wol_packet mac env).1.filter isUdpSend).length ≤ 1 ∧
    ((send_telegram_message chat t renv).1.filter isReplyRequest).length ≤ 1 ∧
    ((send_telegram_message chat t renv).1.filter isErrorLog = []) ∧
    ((send_wol_packet mac env).2 = ()) ∧
    ((send_telegram_message chat t renv).2 = ()) := by
  refine ⟨rfl, rfl, ?_, ?_, ?_, rfl, rfl⟩
  · rcases env with ⟨b, sd⟩
    cases b <;> cases sd <;> simp [send_wol_packet, isUdpSend]
  · cases renv <;> simp [send_telegram_message, isReplyRequest]
  · cases renv <;> simp [send_telegram_message, isErrorLog]

/-- C7: a fetch of updates 7 ("/wake") then 8 ("/health") for authorized
chat 42 moves the offset to 9, invokes the wake exactly once, and sends
the replies "Success!" then "Ready!" in that order. -/
theorem scenario_two_updates :
    ((pollCycle [42] 7 (.response 200 (some ⟨true,
        [⟨7, some ⟨some "/wake", ⟨42⟩⟩⟩, ⟨8, some ⟨some "/health", ⟨42⟩⟩⟩]⟩))).1 = 9) ∧
    (((pollCycle [42] 7 (.response 200 (some ⟨true,
        [⟨7, some ⟨some "/wake", ⟨42⟩⟩⟩, ⟨8, some ⟨some "/health", ⟨42⟩⟩⟩]⟩))).2.filter isAction)
        = [.wolCall, .replyCall 42 "Success!", .replyCall 42 "Ready!"]) := by
  decide

/-- C8: a single "/health" update with id 5 moves the offset to 6; from
authorized chat 42 it yields exactly one reply "Ready!" and no wake; from
unauthorized chat 99 it still moves the offset to 6 with no action. -/
theorem scenario_health :
    ((pollCycle [42] 0 (.response 200 (some ⟨true,
        [⟨5, some ⟨some "/health", ⟨42⟩⟩⟩]⟩))).1 = 6) ∧
    (((pollCycle [42] 0 (.response 200 (some ⟨true,
        [⟨5, some ⟨some "/health", ⟨42⟩⟩⟩]⟩))).2.filter isAction)
        = [.replyCall 42 "Ready!"]) ∧
    ((pollCycle [42] 0 (.response 200 (some ⟨true,
        [⟨5, some ⟨some "/health", ⟨99⟩⟩⟩]⟩))).1 = 6) ∧
    (((pollCycle [42] 0 (.response 200 (some ⟨true,
        [⟨5, some ⟨some "/health", ⟨99⟩⟩⟩]⟩))).2.filter isAction) = []) := by
  decide

/-- C9: the parsed `ok` field is never inspected — two responses that
differ only in `ok` produce identical offset updates and identical event
traces. -/
theorem ok_field_ignored (auth : List Int) (off status : Nat) (b1 b2 : Bool)
    (r : List Update) :
    pollCycle auth off (.response status (some ⟨b1, r⟩))
      = pollCycle auth off (.response status (some ⟨b2, r⟩)) := rfl

/-- C10: a response with a non-200 status is a failed cycle: independently
of the body (which is never parsed), the offset is unchanged and the cycle
emits only the status error log before sleeping. -/
theorem non200_failed_cycle (auth : List Int) (off status : Nat)
    (p : Option TelegramResponse) (h : status ≠ 200) :
    pollCycle auth off (.response status p)
      = (off, [.fetch off, .logError ("Telegram error status: " ++ toString status),
               .sleepSec 1]) := by
  simp [pollCycle, h]

/-- Witness for C10: a 502 response carrying a perfectly parseable body is
still discarded. -/
theorem non200_failed_cycle_witness :
    ((502 : Nat) ≠ 200) ∧
    (pollCycle [42] 3 (.response 502 (some ⟨true, [⟨9, none⟩]⟩))
      = (3, [.fetch 3, .logError ("Telegram error status: " ++ toString (502 : Nat)),
             .sleepSec 1])) :=
  ⟨by decide, non200_failed_cycle [42] 3 502 (some ⟨true, [⟨9, none⟩]⟩) (by decide)⟩

end WolMan
